import Mathlib

/-!
Shallow embedding of `src/src/modules/rlm_dotnet/rlm_dotnet.c` (a FreeRADIUS
module bridging the server's request pipeline to the .NET Core hosting API),
together with theorems settling the specification claims about it.

Modelling conventions:
* C function pointers obtained from `dlsym` are modelled by `Bool` fields
  recording whether the symbol resolved (non-NULL).  Calling through a NULL
  function pointer is undefined behavior in C; the embedding models such a
  call as the `none` outcome ("crash"), and every defined execution as
  `some`.
* The external world (the platform loader `dlopen`/`dlsym` and the three
  foreign hosting entry points `coreclr_initialize`,
  `coreclr_create_delegate`, `coreclr_shutdown_2`) is an environment of pure
  functions: each foreign call's result is a function of its arguments.
* Every foreign call actually made is recorded in a trace, so that claims
  about "binder call counts" and about the arguments passed to
  `coreclr_initialize` are statable.
* Lean forbids a declaration name ending in the word after `coreclr_`, so
  the fields standing for the `coreclr_initialize` pointer are named
  `coreclr_init` / `coreclr_init_ptr`; every other name follows the source.
-/

set_option linter.unusedVariables false

namespace RlmDotnet

/-- The pipeline-stage enumeration: one constructor per `dotnet_func_def_t`
field of `rlm_dotnet_t` (the build without `WITH_COA`, which adds
`recv_coa`/`send_coa`). -/
inductive Stage where
  | instantiate
  | authorize
  | authenticate
  | preacct
  | accounting
  | checksimul
  | pre_proxy
  | post_proxy
  | post_auth
  | detach
deriving DecidableEq, Repr

/-- The stages in the order `mod_instantiate` binds them (the order of the
`A(x)` macro expansions). -/
def Stage.all : List Stage :=
  [.instantiate, .authorize, .authenticate, .preacct, .accounting,
   .checksimul, .pre_proxy, .post_proxy, .post_auth, .detach]

/-- The stages for which the source generates a `MOD_FUNC(x)` dispatcher and
an entry in the `rlm_dotnet.methods` table. -/
def dispatchStages : List Stage :=
  [.authenticate, .authorize, .preacct, .accounting, .checksimul,
   .pre_proxy, .post_proxy, .post_auth]

/-- Embedding of `dotnet_func_def_t`: the bound delegate pointer (`none` is
the C NULL) and the three configured identifier strings (`none` is a NULL
`char const *`; `function_name = none` means the stage is unconfigured). -/
structure DotnetFuncDef where
  function : Option Nat
  assembly_name : Option String
  class_name : Option String
  function_name : Option String
deriving DecidableEq, Repr

/-- Embedding of `rlm_dotnet_t`.  `coreclr_init_ptr`,
`coreclr_create_delegate_ptr` and `coreclr_shutdown_2_ptr` record whether
`dlsym` resolved the corresponding hosting symbol (the function pointer is
non-NULL); the per-stage `dotnet_func_def_t` fields are gathered into the
function `slots`. -/
structure RlmDotnetT where
  dylib : Option Nat
  hostHandle : Nat
  domainId : Nat
  coreclr_init_ptr : Bool
  coreclr_create_delegate_ptr : Bool
  coreclr_shutdown_2_ptr : Bool
  clr_library : String
  slots : Stage → DotnetFuncDef

/-- One foreign call made through a resolved hosting entry point, with the
arguments the C code passes. -/
inductive ForeignCall where
  | initCall (exePath appDomainFriendlyName : String)
      (propertyKeys propertyValues : List String)
  | delegateCall (hostHandle : Nat) (domainId : Nat)
      (assembly_name class_name function_name : Option String)
  | shutdownCall (hostHandle : Nat) (domainId : Nat)
deriving DecidableEq, Repr

/-- The external world: platform loader plus the three foreign hosting entry
points, each modelled as a pure function of the arguments the C code passes.
`dlopen` returns `none` for failure; each `dlsym_*` field tells whether the
named symbol resolves in the given library handle.  `coreclr_init` returns
(status, hostHandle written, domainId written); `coreclr_create_delegate`
returns (status, delegate pointer written); `coreclr_shutdown_2` returns
(status, latchedExitCode written). -/
structure HostEnv where
  dlopen : String → Option Nat
  dlsym_coreclr_init : Nat → Bool
  dlsym_coreclr_create_delegate : Nat → Bool
  dlsym_coreclr_shutdown_2 : Nat → Bool
  coreclr_init : String → String → List String → List String → Int × Nat × Nat
  coreclr_create_delegate :
    Nat → Nat → Option String → Option String → Option String → Int × Nat
  coreclr_shutdown_2 : Nat → Nat → Int × Int

/-- Modelled from the hosting API header (freeradius modules.h, not under
src/): the module failure return code used by `mod_instantiate`. -/
def RLM_MODULE_FAIL : Int := 1

/-- Modelled from the hosting API header (freeradius modules.h, not under
src/): the host's "no-op / module made no decision" result code. -/
def RLM_MODULE_NOOP : Int := 7

/-- The hard-coded base path literal passed to `coreclr_initialize`. -/
def exePath : String := "/Users/blakeramsdell/Source/OpenSource/freeradius-server"

/-- The `propertyKeys` array of `mod_instantiate`. -/
def propertyKeys : List String := ["TRUSTED_PLATFORM_ASSEMBLIES"]

/-- Modelled from the spec: the compile-time constant `CLR_PATH` from the
generated header `clrpath.h` (not under src/), a platform-specific joined
list of assembly paths.  Its value is a fixed compiled-in string, not
influenced by configuration; the concrete text is immaterial here. -/
def CLR_PATH : String := "<compiled-in trusted platform assembly list>"

/-- The `propertyValues` array of `mod_instantiate`. -/
def propertyValues : List String := [CLR_PATH]

/-- Embedding of `bind_dotnet`: `dlopen(inst->clr_library, RTLD_NOW |
RTLD_GLOBAL)`; on failure log and return 1.  On success resolve the three
hosting symbols with `dlsym`, logging (but not failing) when a symbol is
missing, and return 0. -/
def bind_dotnet (env : HostEnv) (inst : RlmDotnetT) : Int × RlmDotnetT :=
  match env.dlopen inst.clr_library with
  | none => (1, { inst with dylib := none })
  | some h =>
      (0, { inst with
              dylib := some h,
              coreclr_init_ptr := env.dlsym_coreclr_init h,
              coreclr_create_delegate_ptr := env.dlsym_coreclr_create_delegate h,
              coreclr_shutdown_2_ptr := env.dlsym_coreclr_shutdown_2 h })

/-- Embedding of `bind_one_method`: when the slot has a configured
`function_name`, call `inst->coreclr_create_delegate(inst->hostHandle,
inst->domainId, assembly_name, class_name, function_name, &function)`; a
nonzero status is logged and leaves the slot's `function` unchanged, a zero
status stores the written delegate pointer.  An unconfigured slot is skipped
with rc 0 and no foreign call.  Calling through an unresolved (NULL)
`coreclr_create_delegate` pointer is undefined behavior, modelled as the
`none` outcome. -/
def bind_one_method (env : HostEnv) (inst : RlmDotnetT) (fd : DotnetFuncDef) :
    Option (Int × DotnetFuncDef) × List ForeignCall :=
  match fd.function_name with
  | none => (some (0, fd), [])
  | some _ =>
      if inst.coreclr_create_delegate_ptr then
        let r := env.coreclr_create_delegate inst.hostHandle inst.domainId
          fd.assembly_name fd.class_name fd.function_name
        let call := ForeignCall.delegateCall inst.hostHandle inst.domainId
          fd.assembly_name fd.class_name fd.function_name
        if r.1 ≠ 0 then
          (some (r.1, fd), [call])
        else
          (some (r.1, { fd with function := some r.2 }), [call])
      else
        (none, [])

/-- Pointwise update of the slot table at one stage (the write through
`&inst->x` in the macro expansion). -/
def updAt (slots : Stage → DotnetFuncDef) (a : Stage) (fd : DotnetFuncDef) :
    Stage → DotnetFuncDef :=
  fun u => if u = a then fd else slots u

/-- The sequence of `A(x) bind_one_method(inst, &inst->x, #x);` macro
expansions in `mod_instantiate`, folded over a list of stages: each stage's
slot is passed to `bind_one_method` and updated in place, the return code is
discarded, and a crash (`none`) aborts with the trace made so far. -/
def bindAll (env : HostEnv) (inst : RlmDotnetT) :
    List Stage → Option RlmDotnetT × List ForeignCall
  | [] => (some inst, [])
  | s :: rest =>
      match bind_one_method env inst (inst.slots s) with
      | (none, calls) => (none, calls)
      | (some (_, fd), calls) =>
          let inst' : RlmDotnetT := { inst with slots := updAt inst.slots s fd }
          let r := bindAll env inst' rest
          (r.1, calls ++ r.2)

/-- The one-element trace of the `coreclr_initialize` call with its
hard-coded arguments. -/
def initTrace : List ForeignCall :=
  [ForeignCall.initCall exePath "FreeRadius" propertyKeys propertyValues]

/-- The instance after the `coreclr_initialize` call wrote the context
handle and domain id through its out-parameters. -/
def afterInit (env : HostEnv) (inst1 : RlmDotnetT) : RlmDotnetT :=
  { inst1 with hostHandle := (env.coreclr_init exePath "FreeRadius" propertyKeys propertyValues).2.1, domainId := (env.coreclr_init exePath "FreeRadius" propertyKeys propertyValues).2.2 }

/-- The part of `mod_instantiate` after a successful `bind_dotnet`: call
`coreclr_initialize` with the hard-coded base path, the context name
"FreeRadius" and the one-entry property list; when its status `hr` is zero
bind all the stage methods, when it is nonzero log and skip binding; in
either case fall through to `return 0`.  The first component is `none` when
the execution crashes (a call through a NULL hosting function pointer); the
second component is the trace of foreign calls made. -/
def instantiate_rest (env : HostEnv) (inst1 : RlmDotnetT) :
    Option (Int × RlmDotnetT) × List ForeignCall :=
  if inst1.coreclr_init_ptr then
    if (env.coreclr_init exePath "FreeRadius" propertyKeys propertyValues).1 = 0 then
      match bindAll env (afterInit env inst1) Stage.all with
      | (none, calls) => (none, initTrace ++ calls)
      | (some inst3, calls) => (some (0, inst3), initTrace ++ calls)
    else
      (some (0, afterInit env inst1), initTrace)
  else
    (none, [])

/-- Embedding of `mod_instantiate`: run `bind_dotnet`, returning
`RLM_MODULE_FAIL` if it fails, and otherwise continue with
`instantiate_rest` on the post-load instance. -/
def mod_instantiate (env : HostEnv) (inst : RlmDotnetT) :
    Option (Int × RlmDotnetT) × List ForeignCall :=
  match bind_dotnet env inst with
  | (brc, inst1) =>
      if brc ≠ 0 then
        (some (RLM_MODULE_FAIL, inst1), [])
      else
        instantiate_rest env inst1

/-- Embedding of `mod_detach`: unconditionally call
`inst->coreclr_shutdown_2(inst->hostHandle, inst->domainId,
&latchedExitCode)`, log the status and latched exit code, and return 0.  A
call through an unresolved (NULL) `coreclr_shutdown_2` pointer is undefined
behavior, modelled as `none`. -/
def mod_detach (env : HostEnv) (inst : RlmDotnetT) :
    Option Int × List ForeignCall :=
  if inst.coreclr_shutdown_2_ptr then
    let r := env.coreclr_shutdown_2 inst.hostHandle inst.domainId
    (some 0, [ForeignCall.shutdownCall inst.hostHandle inst.domainId])
  else
    (none, [])

/-- Embedding of `do_dotnet`: the dispatch stub returns `RLM_MODULE_NOOP`
unconditionally and makes no foreign call (empty trace). -/
def do_dotnet (inst : RlmDotnetT) (request : Nat) (pFunc : Option Nat) :
    Int × List ForeignCall :=
  (RLM_MODULE_NOOP, [])

/-- Embedding of a `MOD_FUNC(x)` wrapper: dispatch for stage `x` calls
`do_dotnet` with the instance, the request and the slot's bound delegate
pointer. -/
def mod_method (x : Stage) (inst : RlmDotnetT) (request : Nat) :
    Int × List ForeignCall :=
  do_dotnet inst request (inst.slots x).function

/-- Per-stage configured strings, as produced by the `module_config`
`CONF_PARSER` table: `asm_<stage>`, `class_<stage>` (both may fall back to
section defaults or be NULL) and `func_<stage>` (NULL when absent, which
disables the stage). -/
structure StageConfig where
  assembly_name : Option String
  class_name : Option String
  function_name : Option String
deriving DecidableEq, Repr

/-- A parsed module configuration: the `clr_library` string option (the
parser supplies the default "libcoreclr.dylib" when unset, so it is always a
string) and the per-stage identifier triples. -/
structure Config where
  clr_library : String
  stageConf : Stage → StageConfig

/-- The instance as handed to `mod_instantiate`: the host allocates it
zero-filled (`inst_size` bytes), so every pointer field is NULL and every
handle 0, and the configuration parser has filled in the strings of
`module_config`. -/
def configuredInstance (cfg : Config) : RlmDotnetT :=
  { dylib := none
    hostHandle := 0
    domainId := 0
    coreclr_init_ptr := false
    coreclr_create_delegate_ptr := false
    coreclr_shutdown_2_ptr := false
    clr_library := cfg.clr_library
    slots := fun s =>
      { function := none
        assembly_name := (cfg.stageConf s).assembly_name
        class_name := (cfg.stageConf s).class_name
        function_name := (cfg.stageConf s).function_name } }

/-- Number of delegate-creation (binder) calls in a trace. -/
def delegateCallCount : List ForeignCall → Nat
  | [] => 0
  | ForeignCall.delegateCall _ _ _ _ _ :: rest => delegateCallCount rest + 1
  | _ :: rest => delegateCallCount rest

/-- The status code `coreclr_create_delegate` returns for a given slot's
identifier triple at the given context handles. -/
def delegate_rc (env : HostEnv) (hh dom : Nat) (fd : DotnetFuncDef) : Int :=
  (env.coreclr_create_delegate hh dom fd.assembly_name fd.class_name fd.function_name).1

/-- The slot as `bind_one_method` leaves it (assuming the delegate-creation
entry point is resolved): unchanged when unconfigured or when the creator
fails, bound to the written pointer when it succeeds. -/
def bindSlotOutcome (env : HostEnv) (hh dom : Nat) (fd : DotnetFuncDef) : DotnetFuncDef :=
  match fd.function_name with
  | none => fd
  | some _ =>
      let r := env.coreclr_create_delegate hh dom fd.assembly_name fd.class_name fd.function_name
      if r.1 ≠ 0 then fd else { fd with function := some r.2 }

/-- The foreign calls `bind_one_method` makes for one slot: none when the
slot is unconfigured, one delegate-creation call otherwise. -/
def delegateCallsFor1 (hh dom : Nat) (fd : DotnetFuncDef) : List ForeignCall :=
  match fd.function_name with
  | none => []
  | some _ =>
      [ForeignCall.delegateCall hh dom fd.assembly_name fd.class_name fd.function_name]

/-- The foreign calls the binding batch makes over a list of stages. -/
def delegateCallsFor (hh dom : Nat) (slots : Stage → DotnetFuncDef) :
    List Stage → List ForeignCall
  | [] => []
  | s :: rest => delegateCallsFor1 hh dom (slots s) ++ delegateCallsFor hh dom slots rest

/-- Number of stages in the list whose slot has a configured function
identifier. -/
def countConfigured (slots : Stage → DotnetFuncDef) (l : List Stage) : Nat :=
  (l.filter fun s => ((slots s).function_name).isSome).length

/-- Number of stages in the list whose slot holds a bound delegate. -/
def countBound (slots : Stage → DotnetFuncDef) (l : List Stage) : Nat :=
  (l.filter fun s => ((slots s).function).isSome).length

/-- Number of configured stages in the list for which the delegate creator
reports a nonzero status. -/
def countFail (env : HostEnv) (hh dom : Nat) (slots : Stage → DotnetFuncDef)
    (l : List Stage) : Nat :=
  (l.filter fun s => ((slots s).function_name).isSome &&
    !(delegate_rc env hh dom (slots s) == 0)).length

/-- Number of stages in the list that are configured yet hold no bound
delegate. -/
def countUnboundConfigured (slots : Stage → DotnetFuncDef) (l : List Stage) : Nat :=
  (l.filter fun s => ((slots s).function_name).isSome &&
    !((slots s).function).isSome).length

theorem bind_one_method_eq (env : HostEnv) (inst : RlmDotnetT) (fd : DotnetFuncDef)
    (hptr : inst.coreclr_create_delegate_ptr = true) :
    ∃ rc, bind_one_method env inst fd =
      (some (rc, bindSlotOutcome env inst.hostHandle inst.domainId fd),
       delegateCallsFor1 inst.hostHandle inst.domainId fd) := by
  cases hfn : fd.function_name with
  | none =>
      exact ⟨0, by simp [bind_one_method, bindSlotOutcome, delegateCallsFor1, hfn]⟩
  | some f =>
      refine ⟨(env.coreclr_create_delegate inst.hostHandle inst.domainId
        fd.assembly_name fd.class_name fd.function_name).1, ?_⟩
      simp only [bind_one_method, bindSlotOutcome, delegateCallsFor1, hfn, hptr, if_true]
      split <;> simp

theorem bindSlotOutcome_function_name (env : HostEnv) (hh dom : Nat) (fd : DotnetFuncDef) :
    (bindSlotOutcome env hh dom fd).function_name = fd.function_name := by
  cases hfn : fd.function_name with
  | none => simp only [bindSlotOutcome, hfn]
  | some f =>
      simp only [bindSlotOutcome, hfn]
      split <;> simp [hfn]

theorem bindSlotOutcome_function_isSome (env : HostEnv) (hh dom : Nat)
    (fd : DotnetFuncDef) (h : fd.function = none) :
    ((bindSlotOutcome env hh dom fd).function).isSome
      = (fd.function_name.isSome && (delegate_rc env hh dom fd == 0)) := by
  cases hfn : fd.function_name with
  | none => simp [bindSlotOutcome, hfn, h]
  | some f =>
      simp only [bindSlotOutcome, delegate_rc, hfn]
      split <;> rename_i hrc <;> simp_all

theorem delegateCallsFor_congr (hh dom : Nat) (f g : Stage → DotnetFuncDef)
    (l : List Stage) (h : ∀ s ∈ l, f s = g s) :
    delegateCallsFor hh dom f l = delegateCallsFor hh dom g l := by
  induction l with
  | nil => rfl
  | cons a t ih =>
      simp only [delegateCallsFor]
      rw [h a (by simp), ih (fun s hs => h s (by simp [hs]))]

theorem delegateCallCount_append (l₁ l₂ : List ForeignCall) :
    delegateCallCount (l₁ ++ l₂) = delegateCallCount l₁ + delegateCallCount l₂ := by
  induction l₁ with
  | nil => simp [delegateCallCount]
  | cons c t ih =>
      cases c <;> simp [delegateCallCount, ih]
      omega

theorem delegateCallCount_callsFor (hh dom : Nat) (slots : Stage → DotnetFuncDef)
    (l : List Stage) :
    delegateCallCount (delegateCallsFor hh dom slots l) = countConfigured slots l := by
  induction l with
  | nil => rfl
  | cons a t ih =>
      cases hfn : (slots a).function_name <;>
        simp [delegateCallsFor, delegateCallsFor1, delegateCallCount,
          delegateCallCount_append, countConfigured, List.filter_cons, hfn, ih]

theorem length_filter_split (l : List Stage) (p q : Stage → Bool) :
    (l.filter fun s => p s && q s).length + (l.filter fun s => p s && !q s).length
      = (l.filter p).length := by
  induction l with
  | nil => rfl
  | cons a t ih =>
      by_cases hp : p a = true <;> by_cases hq : q a = true <;>
        simp [List.filter_cons, hp, hq] <;> omega

/-- The per-stage final slot table after a binding batch over the stages of
`l`: slots of stages in `l` get their individual `bindSlotOutcome`, the rest
are untouched. -/
def bindUpd (env : HostEnv) (hh dom : Nat) (slots : Stage → DotnetFuncDef)
    (l : List Stage) : Stage → DotnetFuncDef :=
  fun s => if s ∈ l then bindSlotOutcome env hh dom (slots s) else slots s

theorem bindAll_eq (env : HostEnv) (inst : RlmDotnetT) (l : List Stage)
    (hptr : inst.coreclr_create_delegate_ptr = true) (hl : l.Nodup) :
    bindAll env inst l =
      (some { inst with
        slots := bindUpd env inst.hostHandle inst.domainId inst.slots l },
       delegateCallsFor inst.hostHandle inst.domainId inst.slots l) := by
  induction l generalizing inst with
  | nil =>
      have h0 : bindUpd env inst.hostHandle inst.domainId inst.slots [] = inst.slots := by
        funext s
        simp [bindUpd]
      simp only [bindAll, delegateCallsFor, h0]
  | cons a t ih =>
      have ha : a ∉ t := (List.nodup_cons.mp hl).1
      have ht : t.Nodup := (List.nodup_cons.mp hl).2
      obtain ⟨rc, hb⟩ := bind_one_method_eq env inst (inst.slots a) hptr
      simp only [bindAll, hb]
      rw [ih { inst with slots := updAt inst.slots a (bindSlotOutcome env inst.hostHandle inst.domainId (inst.slots a)) } hptr ht]
      have hslots : ∀ s ∈ t,
          updAt inst.slots a
            (bindSlotOutcome env inst.hostHandle inst.domainId (inst.slots a)) s
            = inst.slots s := by
        intro s hs
        have : s ≠ a := fun h => ha (h ▸ hs)
        simp [updAt, this]
      simp only [Prod.mk.injEq, Option.some.injEq]
      refine ⟨?_, ?_⟩
      · congr 1
        funext s
        by_cases hsa : s = a
        · subst hsa
          simp [bindUpd, updAt, ha, List.mem_cons]
        · by_cases hst : s ∈ t <;>
            simp [bindUpd, updAt, List.mem_cons, hsa, hst]
      · simp only [delegateCallsFor]
        congr 1
        exact delegateCallsFor_congr _ _ _ _ t hslots

theorem bind_dotnet_some (env : HostEnv) (inst : RlmDotnetT) (hdl : Nat)
    (h : env.dlopen inst.clr_library = some hdl) :
    bind_dotnet env inst = (0, { inst with dylib := some hdl, coreclr_init_ptr := env.dlsym_coreclr_init hdl, coreclr_create_delegate_ptr := env.dlsym_coreclr_create_delegate hdl, coreclr_shutdown_2_ptr := env.dlsym_coreclr_shutdown_2 hdl }) := by
  unfold bind_dotnet
  rw [h]

theorem mod_instantiate_eq_rest (env : HostEnv) (inst inst1 : RlmDotnetT)
    (hb : bind_dotnet env inst = (0, inst1)) :
    mod_instantiate env inst = instantiate_rest env inst1 := by
  unfold mod_instantiate
  rw [hb]
  rfl

theorem instantiate_rest_returns_zero (env : HostEnv) (inst1 : RlmDotnetT)
    (hp1 : inst1.coreclr_init_ptr = true)
    (hp2 : inst1.coreclr_create_delegate_ptr = true) :
    (instantiate_rest env inst1).1.map Prod.fst = some 0 := by
  unfold instantiate_rest
  rw [if_pos hp1]
  have hp2' : (afterInit env inst1).coreclr_create_delegate_ptr = true := hp2
  rw [bindAll_eq env (afterInit env inst1) Stage.all hp2' (by decide)]
  by_cases hr : (env.coreclr_init exePath "FreeRadius" propertyKeys propertyValues).1 = 0
  · rw [if_pos hr]
    rfl
  · rw [if_neg hr]
    rfl

theorem instantiate_rest_trace (env : HostEnv) (inst1 : RlmDotnetT)
    (hp1 : inst1.coreclr_init_ptr = true) :
    ∃ rest, (instantiate_rest env inst1).2
      = ForeignCall.initCall exePath "FreeRadius" propertyKeys propertyValues :: rest := by
  unfold instantiate_rest
  rw [if_pos hp1]
  by_cases hr : (env.coreclr_init exePath "FreeRadius" propertyKeys propertyValues).1 = 0
  · rw [if_pos hr]
    obtain ⟨ro, calls, hba⟩ : ∃ ro calls,
        bindAll env (afterInit env inst1) Stage.all = (ro, calls) := ⟨_, _, rfl⟩
    rw [hba]
    cases ro
    · exact ⟨calls, rfl⟩
    · exact ⟨calls, rfl⟩
  · rw [if_neg hr]
    exact ⟨[], rfl⟩

/-- A configuration with every stage configured. -/
def cfgAll : Config :=
  { clr_library := "libcoreclr.dylib"
    stageConf := fun _ => { assembly_name := some "MyAssembly", class_name := some "MyClass", function_name := some "MyFunction" } }

/-- A configuration with no stage configured (every `func_<stage>` absent). -/
def cfgNone : Config :=
  { clr_library := "libcoreclr.dylib"
    stageConf := fun _ => { assembly_name := some "MyAssembly", class_name := some "MyClass", function_name := none } }

/-- Per-stage configuration with two stages configured: delegate creation
will fail for `authenticate` ("Bad") and succeed for `authorize` ("Good"). -/
def mixedSlot (s : Stage) : StageConfig :=
  if s = Stage.authenticate then
    { assembly_name := some "MyAssembly", class_name := some "MyClass", function_name := some "Bad" }
  else if s = Stage.authorize then
    { assembly_name := some "MyAssembly", class_name := some "MyClass", function_name := some "Good" }
  else
    { assembly_name := some "MyAssembly", class_name := some "MyClass", function_name := none }

/-- A configuration with exactly the two stages of `mixedSlot` configured. -/
def cfgMixed : Config :=
  { clr_library := "libcoreclr.dylib", stageConf := mixedSlot }

/-- An environment where loading, symbol resolution, context creation and
every delegate creation succeed. -/
def envOk : HostEnv :=
  { dlopen := fun _ => some 7
    dlsym_coreclr_init := fun _ => true
    dlsym_coreclr_create_delegate := fun _ => true
    dlsym_coreclr_shutdown_2 := fun _ => true
    coreclr_init := fun _ _ _ _ => (0, 11, 1)
    coreclr_create_delegate := fun _ _ _ _ _ => (0, 42)
    coreclr_shutdown_2 := fun _ _ => (0, 0) }

/-- Like `envOk` but `coreclr_initialize` reports the nonzero status 1. -/
def envInitFails : HostEnv :=
  { envOk with coreclr_init := fun _ _ _ _ => (1, 0, 0) }

/-- Like `envOk` but the `coreclr_initialize` symbol is missing. -/
def envNoInitSym : HostEnv :=
  { envOk with dlsym_coreclr_init := fun _ => false }

/-- Like `envOk` but the runtime library itself cannot be loaded. -/
def envNoLib : HostEnv :=
  { envOk with dlopen := fun _ => none }

/-- Like `envOk` but `coreclr_shutdown_2` reports the nonzero status 1 and a
latched exit code 3. -/
def envShutdownFails : HostEnv :=
  { envOk with coreclr_shutdown_2 := fun _ _ => (1, 3) }

/-- Like `envOk` but delegate creation fails (status 1) exactly for the
function identifier "Bad". -/
def envBadStage : HostEnv :=
  { envOk with coreclr_create_delegate := fun _ _ _ _ f => if f = some "Bad" then (1, 0) else (0, 42) }

/-- The instance state right after a successful `bind_dotnet` under
`envBadStage`: library loaded, all three hosting symbols resolved, no stage
bound yet. -/
def instMixed : RlmDotnetT :=
  (bind_dotnet envBadStage (configuredInstance cfgMixed)).2

/-- C1: the claim says that a nonzero `coreclr_initialize` status makes
instantiation as a whole fail with zero binder calls.  The code indeed makes
zero binder calls, but `mod_instantiate` falls through to `return 0`: it
reports success (0, not `RLM_MODULE_FAIL`) to the host even though it logged
the initialization error.  This theorem evaluates the embedding at the
failing input (load and symbols fine, `coreclr_initialize` returns 1). -/
theorem init_fail_returns_success_no_binder_calls :
    (mod_instantiate envInitFails (configuredInstance cfgAll)).1.map Prod.fst = some 0 ∧
    delegateCallCount (mod_instantiate envInitFails (configuredInstance cfgAll)).2 = 0 ∧
    (0 : Int) ≠ RLM_MODULE_FAIL :=
  ⟨rfl, rfl, by decide⟩

/-- C2: the claim says a failed `dlsym` of a required symbol is logged
without halting instantiation (which holds: `bind_dotnet` still returns 0),
but that any later use of the unresolved symbol must fail fast instead of
dereferencing a NULL function pointer.  The code has no such guard:
`mod_instantiate` calls `inst->coreclr_initialize` unconditionally, which
with the symbol unresolved is a call through NULL — undefined behavior,
modelled as the `none` outcome, not a reported instantiation failure. -/
theorem unresolved_symbol_is_called_through_null :
    (bind_dotnet envNoInitSym (configuredInstance cfgAll)).1 = 0 ∧
    (mod_instantiate envNoInitSym (configuredInstance cfgAll)).1 = none :=
  ⟨rfl, rfl⟩

/-- C3: the claim says detach without a prior successful instantiate must
not crash.  On a zero-initialized instance (instantiate never ran, or
`dlopen`/`dlsym` failed) `inst->coreclr_shutdown_2` is NULL and `mod_detach`
calls it unconditionally — a call through NULL, modelled as `none`. -/
theorem detach_without_instantiate_crashes :
    (mod_detach envOk (configuredInstance cfgAll)).1 = none :=
  rfl

/-- C4: a dispatchable stage whose slot has no configured function
identifier always dispatches to `RLM_MODULE_NOOP` with no foreign call, and
the binder skips it entirely (no delegate call, slot unchanged). -/
theorem dispatch_unconfigured_is_noop (env : HostEnv) (inst : RlmDotnetT)
    (s : Stage) (request : Nat) (hs : s ∈ dispatchStages)
    (hnone : (inst.slots s).function_name = none) :
    mod_method s inst request = (RLM_MODULE_NOOP, []) ∧
    bind_one_method env inst (inst.slots s) = (some (0, inst.slots s), []) := by
  refine ⟨rfl, ?_⟩
  simp [bind_one_method, hnone]

/-- Witness for C4 at the concrete stage `authorize` of the unconfigured
configuration. -/
theorem dispatch_unconfigured_is_noop_witness :
    Stage.authorize ∈ dispatchStages ∧
    ((configuredInstance cfgNone).slots Stage.authorize).function_name = none ∧
    mod_method Stage.authorize (configuredInstance cfgNone) 3 = (RLM_MODULE_NOOP, []) ∧
    bind_one_method envOk (configuredInstance cfgNone) ((configuredInstance cfgNone).slots Stage.authorize) = (some (0, (configuredInstance cfgNone).slots Stage.authorize), []) := by
  have h := dispatch_unconfigured_is_noop envOk (configuredInstance cfgNone)
    Stage.authorize 3 (by decide) rfl
  exact ⟨by decide, rfl, h.1, h.2⟩

/-- C5: a stage whose binding failed (delegate creator returned nonzero)
keeps its NULL handle, and dispatching it on the post-binding instance
returns `RLM_MODULE_NOOP` with no foreign call — the unbound handle is never
invoked. -/
theorem dispatch_failed_binding_is_noop (env : HostEnv) (inst : RlmDotnetT)
    (s : Stage) (request : Nat) (hs : s ∈ dispatchStages)
    (hnull : (inst.slots s).function = none)
    (hfail : delegate_rc env inst.hostHandle inst.domainId (inst.slots s) ≠ 0) :
    (bindSlotOutcome env inst.hostHandle inst.domainId (inst.slots s)).function = none ∧
    mod_method s { inst with slots := updAt inst.slots s (bindSlotOutcome env inst.hostHandle inst.domainId (inst.slots s)) } request = (RLM_MODULE_NOOP, []) := by
  refine ⟨?_, rfl⟩
  cases hfn : (inst.slots s).function_name with
  | none => simpa [bindSlotOutcome, hfn] using hnull
  | some f =>
      have hcond : delegate_rc env inst.hostHandle inst.domainId (inst.slots s) ≠ 0 := hfail
      simp only [delegate_rc, hfn] at hcond
      simp only [bindSlotOutcome, hfn]
      rw [if_pos hcond]
      exact hnull

/-- Witness for C5 at the concrete stage `authenticate`, whose delegate
creation fails under `envBadStage`. -/
theorem dispatch_failed_binding_is_noop_witness :
    Stage.authenticate ∈ dispatchStages ∧
    (instMixed.slots Stage.authenticate).function = none ∧
    delegate_rc envBadStage instMixed.hostHandle instMixed.domainId (instMixed.slots Stage.authenticate) ≠ 0 ∧
    (bindSlotOutcome envBadStage instMixed.hostHandle instMixed.domainId (instMixed.slots Stage.authenticate)).function = none ∧
    mod_method Stage.authenticate { instMixed with slots := updAt instMixed.slots Stage.authenticate (bindSlotOutcome envBadStage instMixed.hostHandle instMixed.domainId (instMixed.slots Stage.authenticate)) } 3 = (RLM_MODULE_NOOP, []) := by
  have h := dispatch_failed_binding_is_noop envBadStage instMixed
    Stage.authenticate 3 (by decide) rfl (by decide)
  exact ⟨by decide, rfl, by decide, h.1, h.2⟩

/-- C6: if `dlopen` of the configured runtime library fails,
`mod_instantiate` returns the failure code `RLM_MODULE_FAIL` (nonzero) and
the trace is empty — in particular zero binder calls. -/
theorem load_failure_fails_instantiation (env : HostEnv) (cfg : Config)
    (h : env.dlopen cfg.clr_library = none) :
    (mod_instantiate env (configuredInstance cfg)).1.map Prod.fst = some RLM_MODULE_FAIL ∧
    (mod_instantiate env (configuredInstance cfg)).2 = [] ∧
    RLM_MODULE_FAIL ≠ 0 := by
  have hcl : (configuredInstance cfg).clr_library = cfg.clr_library := rfl
  have hb : bind_dotnet env (configuredInstance cfg)
      = (1, { configuredInstance cfg with dylib := none }) := by
    unfold bind_dotnet
    rw [hcl, h]
    rfl
  unfold mod_instantiate
  rw [hb]
  refine ⟨?_, ?_, by decide⟩ <;> simp [RLM_MODULE_FAIL]

/-- Witness for C6 in the environment whose loader fails. -/
theorem load_failure_fails_instantiation_witness :
    envNoLib.dlopen cfgAll.clr_library = none ∧
    (mod_instantiate envNoLib (configuredInstance cfgAll)).1.map Prod.fst = some RLM_MODULE_FAIL ∧
    (mod_instantiate envNoLib (configuredInstance cfgAll)).2 = [] ∧
    RLM_MODULE_FAIL ≠ 0 := by
  have h := load_failure_fails_instantiation envNoLib cfgAll rfl
  exact ⟨rfl, h.1, h.2.1, h.2.2⟩

/-- C7: whenever the shutdown entry point is resolved, `mod_detach` makes
exactly one shutdown call and returns 0 (the host success code) whatever
status and exit code the foreign shutdown reports. -/
theorem detach_reports_success (env : HostEnv) (inst : RlmDotnetT)
    (h : inst.coreclr_shutdown_2_ptr = true) :
    mod_detach env inst = (some 0, [ForeignCall.shutdownCall inst.hostHandle inst.domainId]) := by
  simp [mod_detach, h]

/-- Witness for C7 with a shutdown stub forced to return the nonzero status
1: detach still reports success and makes exactly one shutdown call. -/
theorem detach_reports_success_witness :
    instMixed.coreclr_shutdown_2_ptr = true ∧
    (envShutdownFails.coreclr_shutdown_2 instMixed.hostHandle instMixed.domainId).1 ≠ 0 ∧
    mod_detach envShutdownFails instMixed = (some 0, [ForeignCall.shutdownCall instMixed.hostHandle instMixed.domainId]) :=
  ⟨rfl, by decide, detach_reports_success envShutdownFails instMixed rfl⟩

theorem filter_congr_mem (l : List Stage) (p q : Stage → Bool)
    (h : ∀ s ∈ l, p s = q s) : l.filter p = l.filter q := by
  induction l with
  | nil => rfl
  | cons a t ih =>
      simp only [List.filter_cons, h a (by simp)]
      rw [ih (fun s hs => h s (by simp [hs]))]

theorem bool_and_not_and (a b : Bool) : (a && !(a && b)) = (a && !b) := by
  cases a <;> cases b <;> rfl

/-- C8: binding is a best-effort batch, independent per stage.  Over any
duplicate-free list of stages whose slots start unbound, with N configured
stages of which the delegate creator fails for M: the final table has
exactly N − M bound slots and M configured-but-unbound slots, every
configured stage still gets its delegate-creation attempt (one failure never
stops the rest), and any other duplicate-free ordering of the same stages
produces the same final per-stage table. -/
theorem binding_batch_independent (env : HostEnv) (inst : RlmDotnetT)
    (l₁ l₂ : List Stage) (hptr : inst.coreclr_create_delegate_ptr = true)
    (h₁ : l₁.Nodup) (h₂ : l₂.Nodup) (hmem : ∀ s, s ∈ l₁ ↔ s ∈ l₂)
    (hunbound : ∀ s, (inst.slots s).function = none) :
    (bindAll env inst l₁).1.map (fun i => countBound i.slots l₁)
        = some (countConfigured inst.slots l₁ - countFail env inst.hostHandle inst.domainId inst.slots l₁) ∧
    (bindAll env inst l₁).1.map (fun i => countUnboundConfigured i.slots l₁)
        = some (countFail env inst.hostHandle inst.domainId inst.slots l₁) ∧
    delegateCallCount (bindAll env inst l₁).2 = countConfigured inst.slots l₁ ∧
    (bindAll env inst l₁).1.map RlmDotnetT.slots = (bindAll env inst l₂).1.map RlmDotnetT.slots := by
  have hc1 : countBound (bindUpd env inst.hostHandle inst.domainId inst.slots l₁) l₁
      = (l₁.filter fun s => ((inst.slots s).function_name).isSome && (delegate_rc env inst.hostHandle inst.domainId (inst.slots s) == 0)).length := by
    unfold countBound
    congr 1
    apply filter_congr_mem
    intro s hs
    have hb : bindUpd env inst.hostHandle inst.domainId inst.slots l₁ s
        = bindSlotOutcome env inst.hostHandle inst.domainId (inst.slots s) := by
      simp [bindUpd, hs]
    rw [hb, bindSlotOutcome_function_isSome env _ _ _ (hunbound s)]
  have hsplit : (l₁.filter fun s => ((inst.slots s).function_name).isSome && (delegate_rc env inst.hostHandle inst.domainId (inst.slots s) == 0)).length
      + (l₁.filter fun s => ((inst.slots s).function_name).isSome && !(delegate_rc env inst.hostHandle inst.domainId (inst.slots s) == 0)).length
      = (l₁.filter fun s => ((inst.slots s).function_name).isSome).length :=
    length_filter_split l₁ _ _
  have hc2 : countUnboundConfigured (bindUpd env inst.hostHandle inst.domainId inst.slots l₁) l₁
      = countFail env inst.hostHandle inst.domainId inst.slots l₁ := by
    unfold countUnboundConfigured countFail
    congr 1
    apply filter_congr_mem
    intro s hs
    have hb : bindUpd env inst.hostHandle inst.domainId inst.slots l₁ s
        = bindSlotOutcome env inst.hostHandle inst.domainId (inst.slots s) := by
      simp [bindUpd, hs]
    rw [hb, bindSlotOutcome_function_name, bindSlotOutcome_function_isSome env _ _ _ (hunbound s)]
    exact bool_and_not_and _ _
  have hslots12 : bindUpd env inst.hostHandle inst.domainId inst.slots l₁
      = bindUpd env inst.hostHandle inst.domainId inst.slots l₂ := by
    funext s
    by_cases hsl : s ∈ l₁
    · simp [bindUpd, hsl, (hmem s).mp hsl]
    · have hsl2 : s ∉ l₂ := fun hx => hsl ((hmem s).mpr hx)
      simp [bindUpd, hsl, hsl2]
  rw [bindAll_eq env inst l₁ hptr h₁, bindAll_eq env inst l₂ hptr h₂]
  refine ⟨?_, ?_, ?_, ?_⟩
  · show some (countBound (bindUpd env inst.hostHandle inst.domainId inst.slots l₁) l₁)
      = some (countConfigured inst.slots l₁ - countFail env inst.hostHandle inst.domainId inst.slots l₁)
    rw [hc1]
    congr 1
    unfold countConfigured countFail
    omega
  · show some (countUnboundConfigured (bindUpd env inst.hostHandle inst.domainId inst.slots l₁) l₁)
      = some (countFail env inst.hostHandle inst.domainId inst.slots l₁)
    rw [hc2]
  · show delegateCallCount (delegateCallsFor inst.hostHandle inst.domainId inst.slots l₁)
      = countConfigured inst.slots l₁
    exact delegateCallCount_callsFor _ _ _ _
  · exact congrArg (fun B => Option.map RlmDotnetT.slots (some { inst with slots := B })) hslots12

/-- Witness for C8: under `envBadStage` the instance of `cfgMixed` has two
configured stages, the delegate creator fails for one of them, the batch
ends with exactly one bound slot and one configured-but-unbound slot after
two delegate calls, and binding in reverse order yields the same table. -/
theorem binding_batch_independent_witness :
    instMixed.coreclr_create_delegate_ptr = true ∧
    countConfigured instMixed.slots Stage.all = 2 ∧
    countFail envBadStage instMixed.hostHandle instMixed.domainId instMixed.slots Stage.all = 1 ∧
    (bindAll envBadStage instMixed Stage.all).1.map (fun i => countBound i.slots Stage.all) = some 1 ∧
    (bindAll envBadStage instMixed Stage.all).1.map (fun i => countUnboundConfigured i.slots Stage.all) = some 1 ∧
    delegateCallCount (bindAll envBadStage instMixed Stage.all).2 = 2 ∧
    (bindAll envBadStage instMixed Stage.all).1.map RlmDotnetT.slots = (bindAll envBadStage instMixed Stage.all.reverse).1.map RlmDotnetT.slots := by
  have h := binding_batch_independent envBadStage instMixed Stage.all Stage.all.reverse
    rfl (by decide) (by decide) (fun s => List.mem_reverse.symm) (fun s => rfl)
  refine ⟨rfl, by decide, by decide, ?_, ?_, ?_, h.2.2.2⟩
  · rw [h.1]
    decide
  · rw [h.2.1]
    decide
  · rw [h.2.2.1]
    decide

/-- C9: whenever `bind_dotnet` succeeds (the library loads; for the claim's
quantification over initialization statuses and per-stage binding outcomes
to make sense, the resolved initializer and delegate-creator symbols must be
callable), `mod_instantiate` returns 0 — success — to the host, whatever
status `coreclr_initialize` reports and whatever per-stage delegate failures
occur. -/
theorem instantiate_returns_zero_after_load (env : HostEnv) (cfg : Config) (hdl : Nat)
    (hopen : env.dlopen cfg.clr_library = some hdl)
    (hsym1 : env.dlsym_coreclr_init hdl = true)
    (hsym2 : env.dlsym_coreclr_create_delegate hdl = true) :
    (mod_instantiate env (configuredInstance cfg)).1.map Prod.fst = some 0 := by
  have hb := bind_dotnet_some env (configuredInstance cfg) hdl hopen
  rw [mod_instantiate_eq_rest env _ _ hb]
  exact instantiate_rest_returns_zero env _ hsym1 hsym2

/-- Witness for C9: with `envBadStage`/`cfgMixed` one configured stage fails
to bind, yet instantiation reports 0. -/
theorem instantiate_returns_zero_after_load_witness :
    envBadStage.dlopen cfgMixed.clr_library = some 7 ∧
    envBadStage.dlsym_coreclr_init 7 = true ∧
    envBadStage.dlsym_coreclr_create_delegate 7 = true ∧
    (mod_instantiate envBadStage (configuredInstance cfgMixed)).1.map Prod.fst = some 0 :=
  ⟨rfl, rfl, rfl, instantiate_returns_zero_after_load envBadStage cfgMixed 7 rfl rfl rfl⟩

/-- C10: whenever `coreclr_initialize` is reached, its arguments are the
compiled-in base path, the context name "FreeRadius" and the one-entry
property list keyed TRUSTED_PLATFORM_ASSEMBLIES with the compiled-in
CLR_PATH value — for every configuration `cfg`, which influences none of
them. -/
theorem init_args_fixed (env : HostEnv) (cfg : Config) (hdl : Nat)
    (hopen : env.dlopen cfg.clr_library = some hdl)
    (hsym1 : env.dlsym_coreclr_init hdl = true) :
    propertyKeys = ["TRUSTED_PLATFORM_ASSEMBLIES"] ∧
    propertyKeys.length = 1 ∧
    ∃ rest, (mod_instantiate env (configuredInstance cfg)).2
      = ForeignCall.initCall exePath "FreeRadius" propertyKeys propertyValues :: rest := by
  refine ⟨rfl, rfl, ?_⟩
  have hb := bind_dotnet_some env (configuredInstance cfg) hdl hopen
  rw [mod_instantiate_eq_rest env _ _ hb]
  exact instantiate_rest_trace env _ hsym1

/-- Witness for C10 under the all-succeeding environment. -/
theorem init_args_fixed_witness :
    envOk.dlopen cfgAll.clr_library = some 7 ∧
    envOk.dlsym_coreclr_init 7 = true ∧
    (propertyKeys = ["TRUSTED_PLATFORM_ASSEMBLIES"] ∧
     propertyKeys.length = 1 ∧
     ∃ rest, (mod_instantiate envOk (configuredInstance cfgAll)).2
       = ForeignCall.initCall exePath "FreeRadius" propertyKeys propertyValues :: rest) :=
  ⟨rfl, rfl, init_args_fixed envOk cfgAll 7 rfl rfl⟩

end RlmDotnet
